import Mathlib

/-!
Verification of VirtualRealTimeClockLib
(src/Silicon/NXP/iMXPlatformPkg/Library/VirtualRealTimeClockLib/VirtualRealTimeClockLib.c).

The library exposes the EDK2 RealTimeClockLib entry points on top of the ARM
architectural performance counter.  LibGetTime reads a platform-configuration
override frequency (PcdArmArchTimerFreqInHz), the live counter frequency
(GetPerformanceCounterProperties) and the raw tick count
(GetPerformanceCounter), and decomposes tick / frequency into a
day/hour/minute/second breakdown stored in an EFI_TIME record.  LibSetTime,
LibGetWakeupTime and LibSetWakeupTime are unconditional EFI_UNSUPPORTED stubs.

The embedding below is shallow: the three external reads become fields of a
ClockEnv record, the two out-parameters become Option-valued buffer contents
threaded in and out of each call (none models a NULL pointer), and the C
unsigned machine integers become Nat with explicit reduction modulo 2 ^ 8 or
2 ^ 32 exactly where the C code narrows a UINT64 value into a narrower struct
field.
-/

namespace VirtualRealTimeClock

/-- Status codes returned by the RealTimeClockLib entry points:
EFI_SUCCESS, EFI_INVALID_PARAMETER, EFI_DEVICE_ERROR, EFI_UNSUPPORTED. -/
inductive EFI_STATUS where
  | success
  | invalidParameter
  | deviceError
  | unsupported
deriving Repr, DecidableEq

/-- Truncation performed by a C assignment of a UINT64 expression to a UINT8
struct field: reduction modulo 2 ^ 8 = 256. -/
def toUINT8 (n : Nat) : Nat := n % 256

/-- Truncation performed by a C assignment of a UINT64 expression to a UINT32
struct field: reduction modulo 2 ^ 32 = 4294967296. -/
def toUINT32 (n : Nat) : Nat := n % 4294967296

/-- Modelled from the spec: the EFI_TIME record of the standard firmware time
interface, declared in the firmware headers rather than in this repository.
Field widths follow that standard declaration: Year is a 16-bit unsigned
field; Month, Day, Hour, Minute, Second and Daylight are 8-bit unsigned
fields; Nanosecond is a 32-bit unsigned field; TimeZone is a 16-bit signed
field.  The store operations of LibGetTimeA reduce every stored value to its
field width. -/
structure EFI_TIME where
  Year : Nat
  Month : Nat
  Day : Nat
  Hour : Nat
  Minute : Nat
  Second : Nat
  Nanosecond : Nat
  TimeZone : Int
  Daylight : Nat
deriving Repr, DecidableEq

/-- Modelled from the spec: the EFI_TIME_CAPABILITIES record of the standard
firmware time interface, declared in the firmware headers rather than in this
repository.  Resolution and Accuracy are 32-bit unsigned fields, SetsToZero
is a boolean. -/
structure EFI_TIME_CAPABILITIES where
  Resolution : Nat
  Accuracy : Nat
  SetsToZero : Bool
deriving Repr, DecidableEq

/-- The external inputs LibGetTime reads: the PcdArmArchTimerFreqInHz
platform-configuration value (a 32-bit unsigned override frequency, 0 when no
override is configured), the live counter frequency returned by
GetPerformanceCounterProperties, and the tick count returned by
GetPerformanceCounter (both 64-bit unsigned). -/
structure ClockEnv where
  pcdArmArchTimerFreqInHz : Nat
  performanceCounterFrequency : Nat
  performanceCounter : Nat
deriving Repr, DecidableEq

/-- The TimerFreq local of LibGetTime (lines 76 to 80): the
PcdArmArchTimerFreqInHz override when that value is positive, otherwise the
live frequency reported by GetPerformanceCounterProperties. -/
def TimerFreq (env : ClockEnv) : Nat :=
  if env.pcdArmArchTimerFreqInHz > 0 then env.pcdArmArchTimerFreqInHz
  else env.performanceCounterFrequency

/-- The ElapsedSeconds value computed at line 93: the performance counter tick
count divided by TimerFreq with truncating unsigned 64-bit division. -/
def ElapsedSeconds (env : ClockEnv) : Nat :=
  env.performanceCounter / TimerFreq env

/-- SECONDS_PER_DAY constant of LibGetTime (line 101). -/
def SECONDS_PER_DAY : Nat := 24 * 60 * 60

/-- SECONDS_PER_HOUR constant of LibGetTime (line 105). -/
def SECONDS_PER_HOUR : Nat := 60 * 60

/-- SECONDS_PER_MINUTE constant of LibGetTime (line 109). -/
def SECONDS_PER_MINUTE : Nat := 60

/-- LibGetTime (lines 61 to 126), instrumented with the evaluation of the
ASSERT (TimerFreq > 0) statement at line 82.  Arguments: the external inputs,
the contents of the Time buffer (none models Time == NULL) and the contents of
the Capabilities buffer (none models Capabilities == NULL).  Result: the
returned status, the final contents of the two buffers, and the value the
ASSERT condition evaluated to (none when control never reached the ASSERT).
The control flow mirrors the source: NULL check on Time first, then frequency
resolution, then the ASSERT and the zero-frequency EFI_DEVICE_ERROR return,
then the Capabilities stores, then the division/modulo chain filling the
EFI_TIME record. -/
def LibGetTimeA (env : ClockEnv) (time0 : Option EFI_TIME)
    (caps0 : Option EFI_TIME_CAPABILITIES) :
    (EFI_STATUS × Option EFI_TIME × Option EFI_TIME_CAPABILITIES) × Option Bool :=
  match time0 with
  | none => ((EFI_STATUS.invalidParameter, none, caps0), none)
  | some _ =>
    let timerFreq := TimerFreq env
    let assertCondition := decide (timerFreq > 0)
    if timerFreq = 0 then
      ((EFI_STATUS.deviceError, time0, caps0), some assertCondition)
    else
      let caps1 : Option EFI_TIME_CAPABILITIES :=
        match caps0 with
        | none => none
        | some _ =>
          some { Accuracy := 0, Resolution := toUINT32 timerFreq,
                 SetsToZero := false }
      let elapsedSeconds := ElapsedSeconds env
      let day := elapsedSeconds / SECONDS_PER_DAY
      let rem1 := elapsedSeconds % SECONDS_PER_DAY
      let hour := rem1 / SECONDS_PER_HOUR
      let rem2 := rem1 % SECONDS_PER_HOUR
      let minute := rem2 / SECONDS_PER_MINUTE
      let second := rem2 % SECONDS_PER_MINUTE
      let t : EFI_TIME :=
        { Year := 0, Month := 0,
          Day := toUINT8 day, Hour := toUINT8 hour,
          Minute := toUINT8 minute, Second := toUINT8 second,
          Nanosecond := 0, TimeZone := 0, Daylight := 0 }
      ((EFI_STATUS.success, some t, caps1), some assertCondition)

/-- LibGetTime as observed by the caller: status and final buffer contents,
without the ASSERT instrumentation. -/
def LibGetTime (env : ClockEnv) (time0 : Option EFI_TIME)
    (caps0 : Option EFI_TIME_CAPABILITIES) :
    EFI_STATUS × Option EFI_TIME × Option EFI_TIME_CAPABILITIES :=
  (LibGetTimeA env time0 caps0).1

/-- LibSetTime (lines 136 to 144): the virtual clock is read-only. -/
def LibSetTime (time : EFI_TIME) : EFI_STATUS :=
  EFI_STATUS.unsupported

/-- LibGetWakeupTime (lines 158 to 167): returns EFI_UNSUPPORTED and leaves
the Enabled, Pending and Time out-buffers untouched. -/
def LibGetWakeupTime (enabled0 pending0 : Option Bool)
    (time0 : Option EFI_TIME) :
    EFI_STATUS × Option Bool × Option Bool × Option EFI_TIME :=
  (EFI_STATUS.unsupported, enabled0, pending0, time0)

/-- LibSetWakeupTime (lines 178 to 186): returns EFI_UNSUPPORTED and leaves
the Time out-buffer untouched. -/
def LibSetWakeupTime (enabled : Bool) (time0 : Option EFI_TIME) :
    EFI_STATUS × Option EFI_TIME :=
  (EFI_STATUS.unsupported, time0)

/-- An all-zero EFI_TIME value, used as arbitrary prior buffer contents in
concrete instantiations. -/
def timeZero : EFI_TIME :=
  { Year := 0, Month := 0, Day := 0, Hour := 0, Minute := 0, Second := 0,
    Nanosecond := 0, TimeZone := 0, Daylight := 0 }

/-- An all-zero EFI_TIME_CAPABILITIES value, used as arbitrary prior buffer
contents in concrete instantiations. -/
def capsZero : EFI_TIME_CAPABILITIES :=
  { Resolution := 0, Accuracy := 0, SetsToZero := true }

/-- Shared reduction lemma: on a call with a non-NULL Time buffer and a
non-zero resolved frequency, LibGetTime succeeds, fully overwrites the Time
record with the division/modulo breakdown of ElapsedSeconds, and overwrites
the Capabilities buffer (when supplied) with accuracy 0, the frequency
truncated to 32 bits as resolution, and SetsToZero false. -/
theorem getTime_success_eq (env : ClockEnv) (t0 : EFI_TIME)
    (caps0 : Option EFI_TIME_CAPABILITIES) (hf : TimerFreq env ≠ 0) :
    LibGetTime env (some t0) caps0 =
      (EFI_STATUS.success,
       some { Year := 0, Month := 0,
              Day := toUINT8 (ElapsedSeconds env / SECONDS_PER_DAY),
              Hour := toUINT8
                (ElapsedSeconds env % SECONDS_PER_DAY / SECONDS_PER_HOUR),
              Minute := toUINT8
                (ElapsedSeconds env % SECONDS_PER_DAY % SECONDS_PER_HOUR /
                  SECONDS_PER_MINUTE),
              Second := toUINT8
                (ElapsedSeconds env % SECONDS_PER_DAY % SECONDS_PER_HOUR %
                  SECONDS_PER_MINUTE),
              Nanosecond := 0, TimeZone := 0, Daylight := 0 },
       caps0.map fun _ =>
         { Accuracy := 0, Resolution := toUINT32 (TimerFreq env),
           SetsToZero := false }) := by
  unfold LibGetTime LibGetTimeA
  rw [if_neg hf]
  cases caps0 <;> rfl

/-- Shared bounds lemma for the division/modulo chain: the hour slot is below
24, the minute and second slots below 60, hence each fits a UINT8 untouched. -/
theorem breakdown_bounds (e : Nat) :
    e % SECONDS_PER_DAY / SECONDS_PER_HOUR < 24 ∧
    e % SECONDS_PER_DAY % SECONDS_PER_HOUR / SECONDS_PER_MINUTE < 60 ∧
    e % SECONDS_PER_DAY % SECONDS_PER_HOUR % SECONDS_PER_MINUTE < 60 := by
  unfold SECONDS_PER_DAY SECONDS_PER_HOUR SECONDS_PER_MINUTE
  omega

/-- C1 counterexample: the claim as stated is false, because the Day store at
line 102 narrows the 64-bit day count into the 8-bit Day field.  At frequency
1 and tick 22118400 = 256 * 86400 the whole-day count is 256, but the
reported Day field holds 256 mod 256 = 0, so the reported day is not
tick / frequency / 86400 and is not unbounded upward. -/
theorem getTime_day_unbounded_counterexample :
    ¬ (∀ (env : ClockEnv) (t0 : EFI_TIME) (c0 : Option EFI_TIME_CAPABILITIES),
        TimerFreq env ≠ 0 →
        ((LibGetTime env (some t0) c0).2.1.map EFI_TIME.Day) =
          some (env.performanceCounter / TimerFreq env / SECONDS_PER_DAY)) := by
  intro h
  exact absurd (h ⟨1, 0, 22118400⟩ timeZero none (by decide)) (by decide)

/-- C1 (amended): for every non-zero resolved frequency and every tick value,
the breakdown written by LibGetTime satisfies
elapsedSeconds = (elapsedSeconds / 86400) * 86400 + hour * 3600 +
minute * 60 + second exactly, with hour below 24, minute and second below 60,
and the reported Day field equal to tick / frequency / 86400 reduced modulo
256 (the 8-bit Day field wraps; the untruncated day count, not the stored
one, is what grows unboundedly until the counter wraps). -/
theorem getTime_decomposition (env : ClockEnv) (t0 : EFI_TIME)
    (c0 : Option EFI_TIME_CAPABILITIES) (hf : TimerFreq env ≠ 0) :
    ∃ t : EFI_TIME, (LibGetTime env (some t0) c0).2.1 = some t ∧
      ElapsedSeconds env =
        ElapsedSeconds env / SECONDS_PER_DAY * SECONDS_PER_DAY +
          t.Hour * SECONDS_PER_HOUR + t.Minute * SECONDS_PER_MINUTE +
          t.Second ∧
      t.Hour < 24 ∧ t.Minute < 60 ∧ t.Second < 60 ∧
      t.Day = ElapsedSeconds env / SECONDS_PER_DAY % 256 := by
  rw [getTime_success_eq env t0 c0 hf]
  refine ⟨_, rfl, ?_, ?_, ?_, ?_, ?_⟩ <;>
    simp only [toUINT8, SECONDS_PER_DAY, SECONDS_PER_HOUR,
      SECONDS_PER_MINUTE] <;> omega

/-- Claim C1 witness: the amended decomposition at frequency 100 and tick
200000 (elapsed 2000 seconds). -/
theorem getTime_decomposition_witness :
    ∃ t : EFI_TIME,
      (LibGetTime ⟨100, 0, 200000⟩ (some timeZero) none).2.1 = some t ∧
      ElapsedSeconds ⟨100, 0, 200000⟩ =
        ElapsedSeconds ⟨100, 0, 200000⟩ / SECONDS_PER_DAY * SECONDS_PER_DAY +
          t.Hour * SECONDS_PER_HOUR + t.Minute * SECONDS_PER_MINUTE +
          t.Second ∧
      t.Hour < 24 ∧ t.Minute < 60 ∧ t.Second < 60 ∧
      t.Day = ElapsedSeconds ⟨100, 0, 200000⟩ / SECONDS_PER_DAY % 256 :=
  getTime_decomposition ⟨100, 0, 200000⟩ timeZero none (by decide)

/-- C2: the Day value LibGetTime stores is the whole-day count
tick / frequency / 86400 reduced modulo 2 ^ 8 = 256 (the 8-bit field wraps
every 256 days), while the stored Hour, Minute and Second equal the
untruncated values of the division/modulo chain (each is below 24 or 60, so
the 8-bit narrowing never changes them). -/
theorem getTime_day_field_truncation (env : ClockEnv) (t0 : EFI_TIME)
    (c0 : Option EFI_TIME_CAPABILITIES) (hf : TimerFreq env ≠ 0) :
    ∃ t : EFI_TIME, (LibGetTime env (some t0) c0).2.1 = some t ∧
      t.Day = ElapsedSeconds env / SECONDS_PER_DAY % 256 ∧
      t.Hour = ElapsedSeconds env % SECONDS_PER_DAY / SECONDS_PER_HOUR ∧
      t.Minute = ElapsedSeconds env % SECONDS_PER_DAY % SECONDS_PER_HOUR /
        SECONDS_PER_MINUTE ∧
      t.Second = ElapsedSeconds env % SECONDS_PER_DAY % SECONDS_PER_HOUR %
        SECONDS_PER_MINUTE := by
  rw [getTime_success_eq env t0 c0 hf]
  refine ⟨_, rfl, ?_, ?_, ?_, ?_⟩ <;>
    simp only [toUINT8, SECONDS_PER_DAY, SECONDS_PER_HOUR,
      SECONDS_PER_MINUTE] <;> omega

/-- Claim C2 witness: at frequency 1 and tick 22204800 = 257 * 86400 the
whole-day count is 257 and the stored Day field wraps to 257 mod 256 = 1. -/
theorem getTime_day_field_truncation_witness :
    (∃ t : EFI_TIME,
      (LibGetTime ⟨1, 0, 22204800⟩ (some timeZero) none).2.1 = some t ∧
      t.Day = ElapsedSeconds ⟨1, 0, 22204800⟩ / SECONDS_PER_DAY % 256 ∧
      t.Hour = ElapsedSeconds ⟨1, 0, 22204800⟩ % SECONDS_PER_DAY /
        SECONDS_PER_HOUR ∧
      t.Minute = ElapsedSeconds ⟨1, 0, 22204800⟩ % SECONDS_PER_DAY %
        SECONDS_PER_HOUR / SECONDS_PER_MINUTE ∧
      t.Second = ElapsedSeconds ⟨1, 0, 22204800⟩ % SECONDS_PER_DAY %
        SECONDS_PER_HOUR % SECONDS_PER_MINUTE) ∧
    ElapsedSeconds ⟨1, 0, 22204800⟩ / SECONDS_PER_DAY % 256 = 1 :=
  ⟨getTime_day_field_truncation ⟨1, 0, 22204800⟩ timeZero none (by decide),
   by decide⟩

/-- C3: when both the Pcd override and the live counter frequency are zero
and the Time destination is non-NULL, LibGetTime returns EFI_DEVICE_ERROR
and leaves both the Time record and the Capabilities buffer exactly as the
caller supplied them. -/
theorem getTime_zero_freq_deviceError (env : ClockEnv) (t0 : EFI_TIME)
    (c0 : Option EFI_TIME_CAPABILITIES)
    (h0 : env.pcdArmArchTimerFreqInHz = 0)
    (h1 : env.performanceCounterFrequency = 0) :
    LibGetTime env (some t0) c0 = (EFI_STATUS.deviceError, some t0, c0) := by
  have hfz : TimerFreq env = 0 := by
    unfold TimerFreq
    rw [h0, h1]
    decide
  simp [LibGetTime, LibGetTimeA, hfz]

/-- Claim C3 witness: at override 0, live frequency 0 and tick 7 the call
returns EFI_DEVICE_ERROR with both buffers unchanged. -/
theorem getTime_zero_freq_deviceError_witness :
    LibGetTime ⟨0, 0, 7⟩ (some timeZero) (some capsZero) =
      (EFI_STATUS.deviceError, some timeZero, some capsZero) :=
  getTime_zero_freq_deviceError ⟨0, 0, 7⟩ timeZero (some capsZero) rfl rfl

/-- C4: LibGetTime uses the Pcd override frequency whenever it is non-zero and
the live counter frequency otherwise, both for the elapsed-seconds division
and for the reported capabilities resolution; in particular with override 50,
live frequency 100 and tick 100000 the call reports 100000 / 50 = 2000
elapsed seconds (33 minutes 20 seconds, not the 16 minutes 40 seconds that
frequency 100 would give) and resolution 50. -/
theorem getTime_freq_preference (o l tick : Nat) (ho : o ≠ 0) :
    TimerFreq ⟨o, l, tick⟩ = o ∧
    TimerFreq ⟨0, l, tick⟩ = l ∧
    ElapsedSeconds ⟨o, l, tick⟩ = tick / o ∧
    LibGetTime ⟨50, 100, 100000⟩ (some timeZero) (some capsZero) =
      (EFI_STATUS.success,
       some { Year := 0, Month := 0, Day := 0, Hour := 0, Minute := 33,
              Second := 20, Nanosecond := 0, TimeZone := 0, Daylight := 0 },
       some { Resolution := 50, Accuracy := 0, SetsToZero := false }) := by
  have hfo : TimerFreq ⟨o, l, tick⟩ = o := by
    unfold TimerFreq
    simp [Nat.pos_of_ne_zero ho]
  refine ⟨hfo, ?_, ?_, by decide⟩
  · unfold TimerFreq
    simp
  · unfold ElapsedSeconds
    rw [hfo]

/-- Claim C4 witness: the frequency preference at override 50, live frequency
100 and tick 100000. -/
theorem getTime_freq_preference_witness :
    TimerFreq ⟨50, 100, 100000⟩ = 50 ∧
    TimerFreq ⟨0, 100, 100000⟩ = 100 ∧
    ElapsedSeconds ⟨50, 100, 100000⟩ = 100000 / 50 ∧
    LibGetTime ⟨50, 100, 100000⟩ (some timeZero) (some capsZero) =
      (EFI_STATUS.success,
       some { Year := 0, Month := 0, Day := 0, Hour := 0, Minute := 33,
              Second := 20, Nanosecond := 0, TimeZone := 0, Daylight := 0 },
       some { Resolution := 50, Accuracy := 0, SetsToZero := false }) :=
  getTime_freq_preference 50 100 100000 (by decide)

/-- C5: for a fixed frequency configuration with a non-zero resolved
frequency, the elapsed-seconds value computed from a larger tick is greater
than or equal to the one computed from a smaller tick. -/
theorem elapsedSeconds_monotone (pcd live tick1 tick2 : Nat)
    (hf : TimerFreq ⟨pcd, live, tick1⟩ ≠ 0) (h12 : tick1 < tick2) :
    ElapsedSeconds ⟨pcd, live, tick1⟩ ≤ ElapsedSeconds ⟨pcd, live, tick2⟩ := by
  unfold ElapsedSeconds TimerFreq
  exact Nat.div_le_div_right (Nat.le_of_lt h12)

/-- Claim C5 witness: monotonicity at frequency 100 between ticks 150 and
350. -/
theorem elapsedSeconds_monotone_witness :
    ElapsedSeconds ⟨100, 0, 150⟩ ≤ ElapsedSeconds ⟨100, 0, 350⟩ :=
  elapsedSeconds_monotone 100 0 150 350 (by decide) (by decide)

/-- C6: LibGetTime is deterministic in its inputs: two invocations whose
Pcd override, live frequency and tick count agree produce identical results,
including every field of the Time record and of the Capabilities buffer. -/
theorem getTime_deterministic (env1 env2 : ClockEnv) (t0 : Option EFI_TIME)
    (c0 : Option EFI_TIME_CAPABILITIES)
    (hp : env1.pcdArmArchTimerFreqInHz = env2.pcdArmArchTimerFreqInHz)
    (hl : env1.performanceCounterFrequency = env2.performanceCounterFrequency)
    (ht : env1.performanceCounter = env2.performanceCounter) :
    LibGetTime env1 t0 c0 = LibGetTime env2 t0 c0 := by
  obtain ⟨a, b, c⟩ := env1
  obtain ⟨d, e, f⟩ := env2
  have hp2 : a = d := hp
  have hl2 : b = e := hl
  have ht2 : c = f := ht
  subst hp2
  subst hl2
  subst ht2
  rfl

/-- Claim C6 witness: two invocations at the frozen pair of tick 200000 and
frequency 100 agree. -/
theorem getTime_deterministic_witness :
    LibGetTime ⟨100, 0, 200000⟩ (some timeZero) (some capsZero) =
      LibGetTime ⟨100, 0, 200000⟩ (some timeZero) (some capsZero) :=
  getTime_deterministic ⟨100, 0, 200000⟩ ⟨100, 0, 200000⟩ (some timeZero)
    (some capsZero) rfl rfl rfl

/-- C7: a NULL Time destination makes LibGetTime return EFI_INVALID_PARAMETER
with the Capabilities buffer untouched, the ASSERT never reached, and a
result independent of the frequency configuration and the counter (the NULL
check precedes the frequency lookup, the counter read and the capabilities
stores). -/
theorem getTime_null_invalidParameter (env alt : ClockEnv)
    (c0 : Option EFI_TIME_CAPABILITIES) :
    LibGetTime env none c0 = (EFI_STATUS.invalidParameter, none, c0) ∧
    (LibGetTimeA env none c0).2 = none ∧
    LibGetTime env none c0 = LibGetTime alt none c0 :=
  ⟨rfl, rfl, rfl⟩

/-- C8: LibSetTime, LibGetWakeupTime and LibSetWakeupTime return
EFI_UNSUPPORTED on every input and write none of their out-buffers. -/
theorem stubs_unsupported (t : EFI_TIME) (e p : Option Bool)
    (t0 t1 : Option EFI_TIME) (en : Bool) :
    LibSetTime t = EFI_STATUS.unsupported ∧
    LibGetWakeupTime e p t0 = (EFI_STATUS.unsupported, e, p, t0) ∧
    LibSetWakeupTime en t1 = (EFI_STATUS.unsupported, t1) :=
  ⟨rfl, rfl, rfl⟩

/-- C9 counterexample: the claim as stated is false for the resolution field,
because the Resolution store at line 89 narrows the 64-bit TimerFreq into the
32-bit Resolution field.  With no override and a live frequency of
4294967296 = 2 ^ 32 the call succeeds but reports resolution
4294967296 mod 2 ^ 32 = 0, not the resolved frequency. -/
theorem getTime_resolution_counterexample :
    ¬ (∀ (env : ClockEnv) (t0 : EFI_TIME) (c0 : EFI_TIME_CAPABILITIES),
        TimerFreq env ≠ 0 →
        ((LibGetTime env (some t0) (some c0)).2.2.map
          EFI_TIME_CAPABILITIES.Resolution) = some (TimerFreq env)) := by
  intro h
  exact absurd (h ⟨0, 4294967296, 0⟩ timeZero capsZero (by decide)) (by decide)

/-- C9 (amended): on every successful LibGetTime call the output fields Year,
Month, Nanosecond, TimeZone and Daylight are all 0, and a supplied
capabilities buffer is populated with accuracy 0, SetsToZero false, and
resolution equal to the resolved counter frequency reduced modulo 2 ^ 32
(equal to the frequency itself whenever it is below 2 ^ 32, which always
holds when the 32-bit Pcd override is the source). -/
theorem getTime_fixed_fields (env : ClockEnv) (t0 : EFI_TIME)
    (caps0 : Option EFI_TIME_CAPABILITIES) (hf : TimerFreq env ≠ 0) :
    (LibGetTime env (some t0) caps0).1 = EFI_STATUS.success ∧
    (∃ t : EFI_TIME, (LibGetTime env (some t0) caps0).2.1 = some t ∧
      t.Year = 0 ∧ t.Month = 0 ∧ t.Nanosecond = 0 ∧ t.TimeZone = 0 ∧
      t.Daylight = 0) ∧
    (LibGetTime env (some t0) caps0).2.2 =
      (caps0.map fun _ =>
        { Accuracy := 0, Resolution := TimerFreq env % 4294967296,
          SetsToZero := false }) ∧
    (TimerFreq env < 4294967296 →
      (LibGetTime env (some t0) caps0).2.2 =
        caps0.map fun _ =>
          { Accuracy := 0, Resolution := TimerFreq env,
            SetsToZero := false }) := by
  rw [getTime_success_eq env t0 caps0 hf]
  refine ⟨rfl, ⟨_, rfl, rfl, rfl, rfl, rfl, rfl⟩, rfl, ?_⟩
  intro hlt
  rw [show toUINT32 (TimerFreq env) = TimerFreq env from Nat.mod_eq_of_lt hlt]

/-- Claim C9 witness: the amended capability population at the 19.2 MHz live
frequency from the source header comment, with no override, at tick
384000000 (20 elapsed seconds). -/
theorem getTime_fixed_fields_witness :
    (LibGetTime ⟨0, 19200000, 384000000⟩ (some timeZero) (some capsZero)).1 =
      EFI_STATUS.success ∧
    (∃ t : EFI_TIME,
      (LibGetTime ⟨0, 19200000, 384000000⟩ (some timeZero)
        (some capsZero)).2.1 = some t ∧
      t.Year = 0 ∧ t.Month = 0 ∧ t.Nanosecond = 0 ∧ t.TimeZone = 0 ∧
      t.Daylight = 0) ∧
    (LibGetTime ⟨0, 19200000, 384000000⟩ (some timeZero)
      (some capsZero)).2.2 =
      ((some capsZero).map fun _ =>
        { Accuracy := 0,
          Resolution := TimerFreq ⟨0, 19200000, 384000000⟩ % 4294967296,
          SetsToZero := false }) ∧
    (TimerFreq ⟨0, 19200000, 384000000⟩ < 4294967296 →
      (LibGetTime ⟨0, 19200000, 384000000⟩ (some timeZero)
        (some capsZero)).2.2 =
        (some capsZero).map fun _ =>
          { Accuracy := 0,
            Resolution := TimerFreq ⟨0, 19200000, 384000000⟩,
            SetsToZero := false }) :=
  getTime_fixed_fields ⟨0, 19200000, 384000000⟩ timeZero (some capsZero)
    (by decide)

/-- C10: the ASSERT (TimerFreq > 0) at line 82 evaluates to true exactly when
the resolved frequency is non-zero, and on the zero-frequency input class
(override and live frequency both zero, Time non-NULL) execution reaches the
ASSERT with a false condition and then returns EFI_DEVICE_ERROR. -/
theorem getTime_assert_validity (env : ClockEnv) (t0 : EFI_TIME)
    (c0 : Option EFI_TIME_CAPABILITIES) :
    ((LibGetTimeA env (some t0) c0).2 = some true ↔ TimerFreq env ≠ 0) ∧
    (env.pcdArmArchTimerFreqInHz = 0 ∧ env.performanceCounterFrequency = 0 →
      (LibGetTimeA env (some t0) c0).2 = some false ∧
      (LibGetTime env (some t0) c0).1 = EFI_STATUS.deviceError) := by
  by_cases hz : TimerFreq env = 0
  · constructor
    · simp [LibGetTimeA, hz]
    · intro hboth
      constructor <;> simp [LibGetTimeA, LibGetTime, hz]
  · constructor
    · simp [LibGetTimeA, hz, Nat.pos_iff_ne_zero]
    · intro hboth
      exact absurd
        (by unfold TimerFreq; rw [hboth.1, hboth.2]; decide) hz

/-- Claim C10 witness: at override 0, live frequency 0 and tick 5 the ASSERT
is reached with a false condition and the call returns EFI_DEVICE_ERROR. -/
theorem getTime_assert_validity_witness :
    (LibGetTimeA ⟨0, 0, 5⟩ (some timeZero) none).2 = some false ∧
    (LibGetTime ⟨0, 0, 5⟩ (some timeZero) none).1 =
      EFI_STATUS.deviceError :=
  (getTime_assert_validity ⟨0, 0, 5⟩ timeZero none).2 ⟨rfl, rfl⟩

end VirtualRealTimeClock
